import Mathlib

/-!
Verification of the horse cooldown overlap check and the event-edit action
of the equestrian volunteer-coordination application.

Time is modelled as an integer count of milliseconds since the Unix epoch
(the comparison JavaScript performs on `Date` values).  Adding one day, as
`date-fns`'s `add(date, { days: 1 })` does, is modelled as adding
86400000 milliseconds; adding minutes, as `addMinutes` does, as adding
60000 milliseconds per minute.
-/

/-- Milliseconds in one day, the amount `add(date, { days: 1 })` shifts by. -/
def msPerDay : Int := 86400000

/-- Milliseconds in one minute, the amount `addMinutes` scales by. -/
def msPerMinute : Int := 60000

/-- A horse as validated by `horseSchema`: `id` and `name` are required
strings, the two cooldown boundaries are optional dates
(`optionalDateSchema`). -/
structure Horse where
  id : String
  name : String
  cooldownStartDate : Option Int
  cooldownEndDate : Option Int
  deriving Repr, DecidableEq

/-- An instructor as validated by `instructorSchema`. -/
structure Instructor where
  id : String
  name : String
  username : String
  deriving Repr, DecidableEq

/-- The value produced by a successful parse of the form data against
`editEventSchema`. -/
structure SubmissionValue where
  title : String
  startDate : Int
  duration : Int
  horses : Option (List Horse)
  instructor : Option Instructor
  cleaningCrewReq : Int
  lessonAssistantsReq : Int
  sideWalkersReq : Int
  horseLeadersReq : Int
  isPrivate : Bool
  deriving Repr, DecidableEq

/-- The predicate of the `filter` in the action's cooldown check: a horse
conflicts when both cooldown boundaries are present (truthy) and
`cooldownStartDate <= start && start < add(cooldownEndDate, { days: 1 })`;
otherwise the callback returns `false`. -/
def horseConflicts (start : Int) (horse : Horse) : Bool :=
  match horse.cooldownStartDate, horse.cooldownEndDate with
  | some s, some e => decide (s ≤ start) && decide (start < e + msPerDay)
  | _, _ => false

/-- `selectedHorsesArray.filter(horse => ...)`: the ordered list of selected
horses whose cooldown window contains the candidate start. -/
def checkCooldownConflicts (start : Int) (horses : List Horse) : List Horse :=
  horses.filter (horseConflicts start)

/-- `errorHorses.map(h => h.name).join(', ')`. -/
def listOfHorses (errorHorses : List Horse) : String :=
  String.intercalate ", " (errorHorses.map Horse.name)

/-- The `data` record handed to `prisma.event.update`: the fields of the
event that the action persists. -/
structure EventUpdateData where
  title : String
  start : Int
  end_ : Int
  instructors : List String
  horses : List String
  cleaningCrewReq : Int
  lessonAssistantsReq : Int
  sideWalkersReq : Int
  horseLeadersReq : Int
  isPrivate : Bool
  deriving Repr, DecidableEq

/-- The observable outcome of the action:
`error 400` is the schema-validation failure response
(`json({status:'error',...}, {status: 400})`),
`horseError m` is the cooldown-conflict response
(`json({status:'horse-error', message: m})`), and
`updated d` means `prisma.event.update` was reached with payload `d`. -/
inductive ActionResult where
  | error (httpStatus : Int)
  | horseError (message : String)
  | updated (data : EventUpdateData)
  deriving Repr, DecidableEq

/-- The update payload the action builds after the cooldown check passes:
`end` is `addMinutes(start, duration)`, `instructors` is set from the
optional instructor, `horses` is set to `horseIds ?? []`. -/
def updatePayload (value : SubmissionValue) : EventUpdateData :=
  { title := value.title
    start := value.startDate
    end_ := value.startDate + value.duration * msPerMinute
    instructors := match value.instructor with
      | some i => [i.id]
      | none => []
    horses := (value.horses.map (List.map Horse.id)).getD []
    cleaningCrewReq := value.cleaningCrewReq
    lessonAssistantsReq := value.lessonAssistantsReq
    sideWalkersReq := value.sideWalkersReq
    horseLeadersReq := value.horseLeadersReq
    isPrivate := value.isPrivate }

/-- The event-edit `action` after authentication: `none` models a submission
that failed `editEventSchema` validation (`!submission.value`); otherwise
the cooldown check runs when the `horses` field is present, returning the
`horse-error` response when some selected horse conflicts, and the update
is performed otherwise. -/
def action (submission : Option SubmissionValue) : ActionResult :=
  match submission with
  | none => ActionResult.error 400
  | some value =>
    let start := value.startDate
    match value.horses with
    | some selectedHorsesArray =>
      let errorHorses := checkCooldownConflicts start selectedHorsesArray
      if errorHorses.length > 0 then
        ActionResult.horseError (listOfHorses errorHorses)
      else
        ActionResult.updated (updatePayload value)
    | none => ActionResult.updated (updatePayload value)

/-- `a` and `b` fall on the same UTC calendar day: some day index `d`
contains both. -/
def sameUTCDay (a b : Int) : Prop :=
  ∃ d : Int, d * msPerDay ≤ a ∧ a < (d + 1) * msPerDay ∧
    d * msPerDay ≤ b ∧ b < (d + 1) * msPerDay

/-- A horse whose cooldown window is 2024-01-10 through 2024-01-12
(midnight UTC epoch milliseconds). -/
def starHorse : Horse :=
  ⟨"horse-1", "Star", some 1704844800000, some 1705017600000⟩

/-- A horse with `cooldownStartDate` absent and `cooldownEndDate`
2024-01-12. -/
def moonHorse : Horse :=
  ⟨"horse-2", "Moon", none, some 1705017600000⟩

/-- A second horse with the 2024-01-10 through 2024-01-12 cooldown
window. -/
def cometHorse : Horse :=
  ⟨"horse-3", "Comet", some 1704844800000, some 1705017600000⟩

/-- A validated submission whose start is 2024-01-12T09:00Z selecting
`starHorse` and `moonHorse`. -/
def sampleSubmission : SubmissionValue :=
  { title := "Lesson"
    startDate := 1705050000000
    duration := 30
    horses := some [starHorse, moonHorse]
    instructor := none
    cleaningCrewReq := 0
    lessonAssistantsReq := 0
    sideWalkersReq := 0
    horseLeadersReq := 0
    isPrivate := false }

/-- C1: for a horse whose `cooldownStartDate` and `cooldownEndDate` are
both present with values `s` and `e`, and any candidate start `t`, the
cooldown check reports the horse as conflicting exactly when it was
selected and `s ≤ t` and `t < e + 1 day`. -/
theorem C1_conflict_iff_in_window (t : Int) (horses : List Horse) (h : Horse)
    (s e : Int) (hcs : h.cooldownStartDate = some s)
    (hce : h.cooldownEndDate = some e) :
    h ∈ checkCooldownConflicts t horses ↔
      h ∈ horses ∧ (s ≤ t ∧ t < e + msPerDay) := by
  rw [checkCooldownConflicts, List.mem_filter, horseConflicts, hcs, hce]
  simp

theorem C1_conflict_iff_in_window_witness :
    starHorse ∈ checkCooldownConflicts 1705050000000 [starHorse] :=
  (C1_conflict_iff_in_window 1705050000000 [starHorse] starHorse
      1704844800000 1705017600000 rfl rfl).mpr
    ⟨by simp, by decide, by decide⟩

/-- C2: a horse with either cooldown boundary absent is never reported as
conflicting, for any candidate start and any value of the other
boundary. -/
theorem C2_absent_boundary_never_conflicts (t : Int) (horses : List Horse)
    (h : Horse)
    (habs : h.cooldownStartDate = none ∨ h.cooldownEndDate = none) :
    h ∉ checkCooldownConflicts t horses := by
  intro hmem
  rw [checkCooldownConflicts, List.mem_filter] at hmem
  have hconf := hmem.2
  rcases habs with h1 | h1 <;>
    rw [horseConflicts, h1] at hconf <;>
    cases hcs : h.cooldownStartDate <;>
    cases hce : h.cooldownEndDate <;>
    simp_all

theorem C2_absent_boundary_never_conflicts_witness :
    moonHorse ∉ checkCooldownConflicts 1705050000000 [starHorse, moonHorse] :=
  C2_absent_boundary_never_conflicts 1705050000000 [starHorse, moonHorse]
    moonHorse (Or.inl rfl)

/-- C4: the list of conflicting horses produced by the cooldown check is a
sublist of the input horse list, so the input's relative order is
preserved. -/
theorem C4_output_sublist_of_input (t : Int) (horses : List Horse) :
    (checkCooldownConflicts t horses).Sublist horses :=
  List.filter_sublist horses

/-- C8: the cooldown check is deterministic: two invocations on equal
candidate starts and equal horse lists produce identical output. -/
theorem C8_deterministic (t₁ t₂ : Int) (hs₁ hs₂ : List Horse)
    (ht : t₁ = t₂) (hl : hs₁ = hs₂) :
    checkCooldownConflicts t₁ hs₁ = checkCooldownConflicts t₂ hs₂ := by
  rw [ht, hl]

theorem C8_deterministic_witness :
    checkCooldownConflicts 1705050000000 [starHorse, moonHorse] =
      checkCooldownConflicts 1705050000000 [starHorse, moonHorse] :=
  C8_deterministic 1705050000000 1705050000000 [starHorse, moonHorse]
    [starHorse, moonHorse] rfl rfl

/-- C3: boundary behaviour for a horse with cooldown window `[S, E]` where
`S` is a date (midnight-aligned) and `S ≤ E`: a candidate start equal to
`S` is reported; a candidate start on `E`'s calendar day is reported; a
candidate start of exactly `E` plus one day is not reported. -/
theorem C3_boundary_behaviour (S E t : Int) (hSE : S ≤ E)
    (hSmid : msPerDay ∣ S) (hday : sameUTCDay t E) (i n : String) :
    horseConflicts S ⟨i, n, some S, some E⟩ = true ∧
    horseConflicts t ⟨i, n, some S, some E⟩ = true ∧
    horseConflicts (E + msPerDay) ⟨i, n, some S, some E⟩ = false := by
  obtain ⟨k, hk⟩ := hSmid
  obtain ⟨d, hd1, hd2, he1, he2⟩ := hday
  refine ⟨?_, ?_, ?_⟩ <;>
    simp only [horseConflicts, Bool.and_eq_true, decide_eq_true_eq,
      Bool.and_eq_false_iff, decide_eq_false_iff_not] <;>
    simp only [msPerDay] at * <;>
    omega

theorem C3_boundary_behaviour_witness :
    horseConflicts 1704844800000
        ⟨"horse-1", "Star", some 1704844800000, some 1705017600000⟩ = true ∧
    horseConflicts 1705050000000
        ⟨"horse-1", "Star", some 1704844800000, some 1705017600000⟩ = true ∧
    horseConflicts 1705104000000
        ⟨"horse-1", "Star", some 1704844800000, some 1705017600000⟩ = false := by
  have h := C3_boundary_behaviour 1704844800000 1705017600000 1705050000000
    (by decide) ⟨19732, by decide⟩
    ⟨19734, by decide, by decide, by decide, by decide⟩ "horse-1" "Star"
  simpa [msPerDay] using h

/-- C5: with the `horses` field present, a non-empty conflict list makes the
action return the `horse-error` result without reaching the event update,
and an empty conflict list makes it persist the update payload. -/
theorem C5_conflicts_block_update (v : SubmissionValue) (hs : List Horse)
    (hh : v.horses = some hs) :
    (checkCooldownConflicts v.startDate hs ≠ [] →
      action (some v) =
        ActionResult.horseError
          (listOfHorses (checkCooldownConflicts v.startDate hs))) ∧
    (checkCooldownConflicts v.startDate hs = [] →
      action (some v) = ActionResult.updated (updatePayload v)) := by
  constructor <;> intro hc <;>
    simp [action, hh, hc, List.length_pos, List.isEmpty_iff]

theorem C5_conflicts_block_update_witness :
    action (some sampleSubmission) = ActionResult.horseError "Star" := by
  have h := (C5_conflicts_block_update sampleSubmission [starHorse, moonHorse]
    rfl).1 (by decide)
  rw [h]
  rfl

/-- The conflict list the action computes from a validated submission: the
cooldown check on the selected horses, or empty when the `horses` field is
absent. -/
def conflictsOf (v : SubmissionValue) : List Horse :=
  match v.horses with
  | some hs => checkCooldownConflicts v.startDate hs
  | none => []

/-- C6: the conflict decision ignores the event duration: a submission that
differs only in `duration` yields the same conflict list and the same
`horse-error` outcome. -/
theorem C6_duration_irrelevant (v : SubmissionValue) (d : Int) :
    conflictsOf { v with duration := d } = conflictsOf v ∧
    ∀ m : String,
      (action (some { v with duration := d }) = ActionResult.horseError m ↔
        action (some v) = ActionResult.horseError m) := by
  constructor
  · rfl
  · intro m
    cases hh : v.horses with
    | none => simp [action, hh]
    | some hs =>
      simp only [action, hh]
      split <;> simp

/-- C9: a submission that fails schema validation yields the
status-`error` response with HTTP status 400, and neither the cooldown
check's `horse-error` response nor any event update occurs. -/
theorem C9_validation_error_no_update :
    action none = ActionResult.error 400 ∧
    (∀ d : EventUpdateData, action none ≠ ActionResult.updated d) ∧
    (∀ m : String, action none ≠ ActionResult.horseError m) := by
  refine ⟨rfl, ?_, ?_⟩ <;> intro x <;> simp [action]

/-- C10: a submission with no `horses` field skips the cooldown check (no
`horse-error` can result) and persists the event with its horse
associations set to the empty list. -/
theorem C10_no_horses_detaches_all (v : SubmissionValue)
    (hh : v.horses = none) :
    action (some v) = ActionResult.updated (updatePayload v) ∧
    (updatePayload v).horses = [] ∧
    (∀ m : String, action (some v) ≠ ActionResult.horseError m) := by
  refine ⟨by simp [action, hh], by simp [updatePayload, hh], ?_⟩
  intro m
  simp [action, hh]

/-- A validated submission with the `horses` field absent. -/
def noHorsesSubmission : SubmissionValue :=
  { title := "Lesson"
    startDate := 1705050000000
    duration := 30
    horses := none
    instructor := none
    cleaningCrewReq := 0
    lessonAssistantsReq := 0
    sideWalkersReq := 0
    horseLeadersReq := 0
    isPrivate := false }

theorem C10_no_horses_detaches_all_witness :
    action (some noHorsesSubmission) =
        ActionResult.updated (updatePayload noHorsesSubmission) ∧
    (updatePayload noHorsesSubmission).horses = [] ∧
    (∀ m : String,
      action (some noHorsesSubmission) ≠ ActionResult.horseError m) :=
  C10_no_horses_detaches_all noHorsesSubmission rfl

/-- A validated submission whose start is 2024-01-12T09:00Z selecting two
conflicting horses and one unrestricted horse. -/
def twoConflictSubmission : SubmissionValue :=
  { title := "Lesson"
    startDate := 1705050000000
    duration := 30
    horses := some [starHorse, moonHorse, cometHorse]
    instructor := none
    cleaningCrewReq := 0
    lessonAssistantsReq := 0
    sideWalkersReq := 0
    horseLeadersReq := 0
    isPrivate := false }

/-- C7: when conflicts exist, the message of the `horse-error` result is
exactly the conflicting horses' names, in input order, joined by a comma
and a space. -/
theorem C7_message_is_joined_names (v : SubmissionValue) (hs : List Horse)
    (hh : v.horses = some hs)
    (hne : checkCooldownConflicts v.startDate hs ≠ []) :
    action (some v) =
      ActionResult.horseError
        (String.intercalate ", "
          ((checkCooldownConflicts v.startDate hs).map Horse.name)) := by
  simp [action, hh, hne, listOfHorses, List.length_pos, List.isEmpty_iff]

theorem C7_message_is_joined_names_witness :
    action (some twoConflictSubmission) =
      ActionResult.horseError "Star, Comet" := by
  have h := C7_message_is_joined_names twoConflictSubmission
    [starHorse, moonHorse, cometHorse] rfl (by decide)
  rw [h]
  rfl
